import Mathlib

/-!
Verification of the IP-address preservation core of the vm-network-migration
repository.

The repository migrates a cloud VM from one network to another.  Its core is
`preserve_ip_addresses_handler`: given the original instance's network
interface, a target network/subnetwork, and the `preserveExternalIp` flag, it
rebuilds a network interface for the new instance, optionally reserving the
original external IP as a named static address through the Compute Provider.

The handler body lives in the `vm_network_migration` module, which is not part
of the sources here (only its tests and its CLI caller `main.py` are); the
handler and the provider collaborator are therefore modelled from the spec
(sections 4.1, 5 and 6).  JSON-dictionary fields that may be absent are
modelled as `Option`; `none` means the field is not present in the dictionary.
-/

/-- Access config of a network interface: the external-exposure descriptor.
Fields `name`, `type` and `natIP` are optional JSON fields. -/
structure AccessConfig where
  name : Option String
  type : Option String
  natIP : Option String
deriving DecidableEq, Repr

/-- Network interface description (`NetworkInterfaceSpec` in the spec).
`networkIP` is the fixed internal IP field; `accessConfigs = none` means the
interface carries no `accessConfigs` field at all. -/
structure NetworkInterface where
  network : Option String
  subnetwork : Option String
  networkIP : Option String
  accessConfigs : Option (List AccessConfig)
deriving DecidableEq, Repr

/-- Caller-supplied target network information: required `network`, optional
`subnetwork` (absent for auto-mode networks). -/
structure NetworkInfo where
  network : String
  subnetwork : Option String
deriving DecidableEq, Repr

/-- Terminal outcome of the static-address reservation request, as classified
by the handler from the provider's structured status/reason error:
normal success (operation polled to DONE), the two recoverable conflicts, or
any other provider error (quota, permission, not-found, ...). -/
inductive ReservationOutcome where
  | success
  | addressExists
  | nameExists
  | otherError (status : Nat) (reason : String)
deriving DecidableEq, Repr

/-- Modelled from the spec: step 1 of the algorithm in section 4.1 of the
handler missing from the sources.  The rebuilt interface copies `network` and
`subnetwork` from the target info only, omits the internal IP field, and
starts with no access configs. -/
def baseInterface (info : NetworkInfo) : NetworkInterface :=
  { network := some info.network
    subnetwork := info.subnetwork
    networkIP := none
    accessConfigs := none }

/-- First access config of the list that carries a `natIP` value, if any. -/
def firstConfigWithNatIP : List AccessConfig → Option AccessConfig
  | [] => none
  | c :: rest => if c.natIP.isSome then some c else firstConfigWithNatIP rest

/-- Fixed suffix appended to the new instance name to derive the reservation
name (spec section 4.1 step 3). -/
def reservationNameSuffix : String := "-external-ip"

/-- Modelled from the spec: deterministic static-address reservation name,
a fixed suffix appended to the new instance name. -/
def reservationName (newInstanceName : String) : String :=
  newInstanceName ++ reservationNameSuffix

/-- Modelled from the spec: step 6 of section 4.1 of the handler missing from
the sources.  The access config attached to the rebuilt interface carries
`natIP` = the preserved literal IP and `type` = one-to-one NAT, mirroring the
original access config's `name`/`type` fields where present. -/
def rebuiltAccessConfig (orig : AccessConfig) (ip : String) : AccessConfig :=
  { name := orig.name
    type := some (orig.type.getD "ONE_TO_ONE_NAT")
    natIP := some ip }

/-- Modelled from the spec: `preserve_ip_addresses_handler` of the
`vm_network_migration` module, missing from the sources (section 4.1).  The
provider's reservation call is abstracted by its classified terminal
`outcome`, so the function covers every reservation result; the outcome is
only consulted on the one path that actually issues a reservation.  All
provider errors are absorbed: the function is total and never raises. -/
def preserve_ip_addresses_handler (info : NetworkInfo) (orig : NetworkInterface)
    (preserveExternalIp : Bool) (outcome : ReservationOutcome) : NetworkInterface :=
  let base := baseInterface info
  if preserveExternalIp then
    match orig.accessConfigs with
    | none => base
    | some cs =>
      match firstConfigWithNatIP cs with
      | none => base
      | some c =>
        match c.natIP with
        | none => base
        | some ip =>
          match outcome with
          | .otherError _ _ => base
          | _ => { base with accessConfigs := some [rebuiltAccessConfig c ip] }
  else base

/-- State of the Compute Provider's region-scoped static addresses: the IP
literals already reserved and the reservation names already in use. -/
structure ProviderState where
  reservedAddresses : List String
  reservedNames : List String
deriving DecidableEq, Repr

/-- Modelled from the spec: `insertStaticAddress` of the Compute Provider
collaborator (section 6), missing from the sources.  It fails with the
address-literal-exists conflict when the IP is already reserved (under any
name), with the name-exists conflict when the reservation name is already in
use, and otherwise reserves the address under the name. -/
def insertStaticAddress (st : ProviderState) (rname addr : String) :
    ReservationOutcome × ProviderState :=
  if addr ∈ st.reservedAddresses then (.addressExists, st)
  else if rname ∈ st.reservedNames then (.nameExists, st)
  else (.success,
    { reservedAddresses := addr :: st.reservedAddresses
      reservedNames := rname :: st.reservedNames })

/-- Modelled from the spec: one full invocation of the handler against the
provider, threading the provider's address state.  The reservation request is
issued only when preservation is requested and the original interface carries
an external IP; its classified outcome is fed to the handler. -/
def preserve_ip_addresses_run (st : ProviderState) (newInstanceName : String)
    (info : NetworkInfo) (orig : NetworkInterface) (preserveExternalIp : Bool) :
    NetworkInterface × ProviderState :=
  if preserveExternalIp then
    match orig.accessConfigs with
    | none => (baseInterface info, st)
    | some cs =>
      match firstConfigWithNatIP cs with
      | none => (baseInterface info, st)
      | some c =>
        match c.natIP with
        | none => (baseInterface info, st)
        | some ip =>
          let res := insertStaticAddress st (reservationName newInstanceName) ip
          (preserve_ip_addresses_handler info orig preserveExternalIp res.1, res.2)
  else (baseInterface info, st)

/-- True when the interface carries an external IP: it has an `accessConfigs`
field and at least one of its access configs carries a `natIP` value. -/
def hasExternalIP (ni : NetworkInterface) : Bool :=
  match ni.accessConfigs with
  | none => false
  | some cs => (firstConfigWithNatIP cs).isSome

/-- Python value resulting from argparse for `--preserve_external_ip` in
`main.py`: either the default Python bool or the raw command-line string. -/
inductive PyValue where
  | pyBool (b : Bool)
  | pyStr (s : String)
deriving DecidableEq, Repr

/-- Parsing of `--preserve_external_ip` in `main.py`: the option is declared
with `default=False` and no `type=` conversion, so an omitted flag yields the
Python bool `False` and a supplied flag yields its raw string value. -/
def parsePreserveExternalIp : Option String → PyValue
  | none => .pyBool false
  | some v => .pyStr v

/-- Python truthiness of the parsed value: a bool is its own truth value, a
string is truthy exactly when it is non-empty. -/
def pyTruthy : PyValue → Bool
  | .pyBool b => b
  | .pyStr s => !s.isEmpty

/-! Concrete sample inputs, mirroring the test fixtures. -/

/-- Target network info used in concrete instances of the theorems. -/
def sampleInfo : NetworkInfo :=
  { network := "mock-target-network"
    subnetwork := some "mock-target-subnetwork" }

/-- Access config of the sample original interface, carrying an external IP. -/
def sampleAccessConfig : AccessConfig :=
  { name := some "External NAT"
    type := some "ONE_TO_ONE_NAT"
    natIP := some "35.203.14.22" }

/-- Sample original interface with an external IP, its own network and a fixed
internal IP. -/
def sampleInterface : NetworkInterface :=
  { network := some "legacy-network"
    subnetwork := some "legacy-subnetwork"
    networkIP := some "10.128.0.2"
    accessConfigs := some [sampleAccessConfig] }

/-- Sample original interface whose access config carries no natIP. -/
def sampleNoIpInterface : NetworkInterface :=
  { network := some "legacy-network"
    subnetwork := some "legacy-subnetwork"
    networkIP := some "10.128.0.2"
    accessConfigs := some [{ name := some "External NAT"
                             type := some "ONE_TO_ONE_NAT"
                             natIP := none }] }

/-- Sample original interface with two access configs, both carrying IPs. -/
def twoConfigInterface : NetworkInterface :=
  { network := some "legacy-network"
    subnetwork := some "legacy-subnetwork"
    networkIP := none
    accessConfigs := some
      [ { name := some "External NAT"
          type := some "ONE_TO_ONE_NAT"
          natIP := some "35.203.14.22" },
        { name := some "External NAT 2"
          type := some "ONE_TO_ONE_NAT"
          natIP := some "35.203.14.23" } ] }

/-! Helper lemmas shared by the claim theorems. -/

/-- On the path where preservation is requested and the original interface
carries an external IP, the handler's result is determined by the reservation
outcome alone: the preserved interface on success or either recoverable
conflict, the bare target interface on any other error. -/
theorem handler_found (info : NetworkInfo) (orig : NetworkInterface)
    (cs : List AccessConfig) (c : AccessConfig) (ip : String)
    (outcome : ReservationOutcome)
    (hcs : orig.accessConfigs = some cs)
    (hc : firstConfigWithNatIP cs = some c)
    (hip : c.natIP = some ip) :
    preserve_ip_addresses_handler info orig true outcome =
      match outcome with
      | .otherError _ _ => baseInterface info
      | _ => { baseInterface info with accessConfigs := some [rebuiltAccessConfig c ip] } := by
  unfold preserve_ip_addresses_handler
  simp only [hcs, hc, hip, if_true]

/-- The handler never touches the target network, subnetwork or internal IP
of the rebuilt interface, whatever the branch taken. -/
theorem handler_shape (info : NetworkInfo) (orig : NetworkInterface)
    (p : Bool) (outcome : ReservationOutcome) :
    (preserve_ip_addresses_handler info orig p outcome).network = some info.network ∧
    (preserve_ip_addresses_handler info orig p outcome).subnetwork = info.subnetwork ∧
    (preserve_ip_addresses_handler info orig p outcome).networkIP = none := by
  unfold preserve_ip_addresses_handler baseInterface
  cases p
  · simp
  · cases hcs : orig.accessConfigs with
    | none => simp [hcs]
    | some cs =>
      cases hfc : firstConfigWithNatIP cs with
      | none => simp [hcs, hfc]
      | some c =>
        cases hip : c.natIP with
        | none => simp [hcs, hfc, hip]
        | some ip => cases outcome <;> simp [hcs, hfc, hip]

/-- The state-threading run of the handler also never touches the target
network, subnetwork or internal IP of the rebuilt interface. -/
theorem run_shape (st : ProviderState) (n : String) (info : NetworkInfo)
    (orig : NetworkInterface) (p : Bool) :
    ((preserve_ip_addresses_run st n info orig p).1).network = some info.network ∧
    ((preserve_ip_addresses_run st n info orig p).1).subnetwork = info.subnetwork ∧
    ((preserve_ip_addresses_run st n info orig p).1).networkIP = none := by
  unfold preserve_ip_addresses_run
  cases p
  · simp [baseInterface]
  · cases hcs : orig.accessConfigs with
    | none => simp [hcs, baseInterface]
    | some cs =>
      cases hfc : firstConfigWithNatIP cs with
      | none => simp [hcs, hfc, baseInterface]
      | some c =>
        cases hip : c.natIP with
        | none => simp [hcs, hfc, hip, baseInterface]
        | some ip =>
          simp only [hcs, hfc, hip, if_true]
          exact handler_shape info orig true _

/-- Running the handler twice against the provider from any state yields the
same rebuilt interface and the same final provider state: the second run's
reservation request hits a recoverable conflict and is absorbed as success. -/
theorem run_idem (st : ProviderState) (n : String) (info : NetworkInfo)
    (orig : NetworkInterface) (p : Bool) :
    preserve_ip_addresses_run (preserve_ip_addresses_run st n info orig p).2 n info orig p
      = preserve_ip_addresses_run st n info orig p := by
  unfold preserve_ip_addresses_run
  cases p
  · simp
  · cases hcs : orig.accessConfigs with
    | none => simp [hcs]
    | some cs =>
      cases hfc : firstConfigWithNatIP cs with
      | none => simp [hcs, hfc]
      | some c =>
        cases hip : c.natIP with
        | none => simp [hcs, hfc, hip]
        | some ip =>
          simp only [hcs, hfc, hip, if_true]
          unfold insertStaticAddress
          by_cases h1 : ip ∈ st.reservedAddresses
          · simp [h1]
          · by_cases h2 : reservationName n ∈ st.reservedNames
            · simp [h1, h2]
            · simp [h1, h2,
                handler_found info orig cs c ip .addressExists hcs hfc hip,
                handler_found info orig cs c ip .success hcs hfc hip]

/-! The claim theorems. -/

/-- C1: for every original interface carrying an external IP and
preserveExternalIp = true, if the reservation fails with either recoverable
conflict (address literal already reserved, or reservation name already in
use) the handler behaves identically to the normal-success case: no error is
raised (the handler is a total function) and the returned interface carries
the original natIP in its access config. -/
theorem recoverable_conflict_behaves_as_success (info : NetworkInfo)
    (orig : NetworkInterface) (cs : List AccessConfig) (c : AccessConfig)
    (ip : String) (outcome : ReservationOutcome)
    (hcs : orig.accessConfigs = some cs)
    (hc : firstConfigWithNatIP cs = some c)
    (hip : c.natIP = some ip)
    (hout : outcome = .addressExists ∨ outcome = .nameExists) :
    preserve_ip_addresses_handler info orig true outcome =
      preserve_ip_addresses_handler info orig true .success ∧
    ∃ ac, (preserve_ip_addresses_handler info orig true outcome).accessConfigs = some [ac] ∧
      ac.natIP = some ip := by
  rcases hout with h | h <;> subst h <;>
    rw [handler_found info orig cs c ip _ hcs hc hip,
        handler_found info orig cs c ip .success hcs hc hip] <;>
    exact ⟨rfl, rebuiltAccessConfig c ip, rfl, rfl⟩

/-- Witness for C1 at the sample fixture, for the address-exists conflict. -/
theorem recoverable_conflict_behaves_as_success_witness :
    preserve_ip_addresses_handler sampleInfo sampleInterface true .addressExists =
      preserve_ip_addresses_handler sampleInfo sampleInterface true .success ∧
    ∃ ac, (preserve_ip_addresses_handler sampleInfo sampleInterface true .addressExists).accessConfigs
        = some [ac] ∧ ac.natIP = some "35.203.14.22" :=
  recoverable_conflict_behaves_as_success sampleInfo sampleInterface
    [sampleAccessConfig] sampleAccessConfig "35.203.14.22" .addressExists
    rfl rfl rfl (Or.inl rfl)

/-- C2: for every original interface carrying an external IP and
preserveExternalIp = true, any reservation error other than the two
recoverable conflicts is absorbed: the handler (a total function, so nothing
is raised) returns the interface with no accessConfigs attached, while
network and subnetwork are still the caller-supplied target values. -/
theorem other_error_degrades_gracefully (info : NetworkInfo)
    (orig : NetworkInterface) (cs : List AccessConfig) (c : AccessConfig)
    (ip : String) (status : Nat) (reason : String)
    (hcs : orig.accessConfigs = some cs)
    (hc : firstConfigWithNatIP cs = some c)
    (hip : c.natIP = some ip) :
    (preserve_ip_addresses_handler info orig true (.otherError status reason)).accessConfigs
      = none ∧
    (preserve_ip_addresses_handler info orig true (.otherError status reason)).network
      = some info.network ∧
    (preserve_ip_addresses_handler info orig true (.otherError status reason)).subnetwork
      = info.subnetwork := by
  rw [handler_found info orig cs c ip _ hcs hc hip]
  exact ⟨rfl, rfl, rfl⟩

/-- Witness for C2 at the sample fixture, with a not-found style error. -/
theorem other_error_degrades_gracefully_witness :
    (preserve_ip_addresses_handler sampleInfo sampleInterface true
        (.otherError 404 "invalid request")).accessConfigs = none ∧
    (preserve_ip_addresses_handler sampleInfo sampleInterface true
        (.otherError 404 "invalid request")).network = some sampleInfo.network ∧
    (preserve_ip_addresses_handler sampleInfo sampleInterface true
        (.otherError 404 "invalid request")).subnetwork = sampleInfo.subnetwork :=
  other_error_degrades_gracefully sampleInfo sampleInterface
    [sampleAccessConfig] sampleAccessConfig "35.203.14.22" 404 "invalid request"
    rfl rfl rfl

/-- C3: for every original interface whose first access config carries a
natIP, when preserveExternalIp = true and the reservation completes normally
(operation DONE, outcome success), the access config of the returned
interface has natIP equal to the original's natIP. -/
theorem success_preserves_natIP (info : NetworkInfo) (orig : NetworkInterface)
    (c : AccessConfig) (rest : List AccessConfig) (ip : String)
    (hcs : orig.accessConfigs = some (c :: rest))
    (hip : c.natIP = some ip) :
    ∃ ac, (preserve_ip_addresses_handler info orig true .success).accessConfigs = some [ac] ∧
      ac.natIP = some ip := by
  have hc : firstConfigWithNatIP (c :: rest) = some c := by
    simp [firstConfigWithNatIP, hip]
  rw [handler_found info orig (c :: rest) c ip .success hcs hc hip]
  exact ⟨rebuiltAccessConfig c ip, rfl, rfl⟩

/-- Witness for C3 at the sample fixture. -/
theorem success_preserves_natIP_witness :
    ∃ ac, (preserve_ip_addresses_handler sampleInfo sampleInterface true .success).accessConfigs
        = some [ac] ∧ ac.natIP = some "35.203.14.22" :=
  success_preserves_natIP sampleInfo sampleInterface sampleAccessConfig []
    "35.203.14.22" rfl rfl

/-- C4: for every original interface, whatever its content, and every
reservation outcome, when preserveExternalIp = false the returned interface
is the bare target interface and contains no accessConfigs field. -/
theorem no_preserve_no_accessConfigs (info : NetworkInfo)
    (orig : NetworkInterface) (outcome : ReservationOutcome) :
    preserve_ip_addresses_handler info orig false outcome = baseInterface info ∧
    (preserve_ip_addresses_handler info orig false outcome).accessConfigs = none := by
  constructor <;> rfl

/-- C5: for every original interface with no external IP present — no access
configs at all, or none of its access configs carrying a natIP — the returned
interface has no accessConfigs, for either value of preserveExternalIp and
every reservation outcome. -/
theorem no_external_ip_no_accessConfigs (info : NetworkInfo)
    (orig : NetworkInterface) (p : Bool) (outcome : ReservationOutcome)
    (h : hasExternalIP orig = false) :
    (preserve_ip_addresses_handler info orig p outcome).accessConfigs = none := by
  unfold preserve_ip_addresses_handler
  cases p
  · rfl
  · unfold hasExternalIP at h
    cases hcs : orig.accessConfigs with
    | none => simp [hcs, baseInterface]
    | some cs =>
      rw [hcs] at h
      cases hfc : firstConfigWithNatIP cs with
      | none => simp [hcs, hfc, baseInterface]
      | some c => simp [hfc] at h

/-- Witness for C5 at the fixture whose access config carries no natIP. -/
theorem no_external_ip_no_accessConfigs_witness :
    (preserve_ip_addresses_handler sampleInfo sampleNoIpInterface true .success).accessConfigs
      = none :=
  no_external_ip_no_accessConfigs sampleInfo sampleNoIpInterface true .success rfl

/-- C6: for every invocation — any original interface, either flag value, any
reservation outcome, and also for the state-threading run against the
provider — the returned interface's network and subnetwork equal exactly the
caller-supplied target values, and are never taken from the original
interface. -/
theorem target_network_always_used (info : NetworkInfo) (orig : NetworkInterface)
    (p : Bool) (outcome : ReservationOutcome) (st : ProviderState) (n : String) :
    (preserve_ip_addresses_handler info orig p outcome).network = some info.network ∧
    (preserve_ip_addresses_handler info orig p outcome).subnetwork = info.subnetwork ∧
    ((preserve_ip_addresses_run st n info orig p).1).network = some info.network ∧
    ((preserve_ip_addresses_run st n info orig p).1).subnetwork = info.subnetwork :=
  ⟨(handler_shape info orig p outcome).1, (handler_shape info orig p outcome).2.1,
   (run_shape st n info orig p).1, (run_shape st n info orig p).2.1⟩

/-- C7: for every invocation — any original interface, either flag value, any
reservation outcome, and also for the state-threading run — the returned
interface never contains a fixed internal IP field (networkIP): the internal
IP is never copied from the original interface. -/
theorem internal_ip_never_copied (info : NetworkInfo) (orig : NetworkInterface)
    (p : Bool) (outcome : ReservationOutcome) (st : ProviderState) (n : String) :
    (preserve_ip_addresses_handler info orig p outcome).networkIP = none ∧
    ((preserve_ip_addresses_run st n info orig p).1).networkIP = none :=
  ⟨(handler_shape info orig p outcome).2.2, (run_shape st n info orig p).2.2⟩

/-- C8: the reservation name is the fixed suffix appended to the new instance
name (hence deterministic in newInstanceName), and running the handler twice
against the provider with the same inputs is idempotent: the second run does
not fail (the run is total, its conflicts absorbed) and returns the same
interface, leaving the provider state unchanged. -/
theorem reservation_retry_idempotent (st : ProviderState) (n : String)
    (info : NetworkInfo) (orig : NetworkInterface) (p : Bool) :
    reservationName n = n ++ reservationNameSuffix ∧
    (preserve_ip_addresses_run (preserve_ip_addresses_run st n info orig p).2 n info orig p).1
      = (preserve_ip_addresses_run st n info orig p).1 ∧
    (preserve_ip_addresses_run (preserve_ip_addresses_run st n info orig p).2 n info orig p).2
      = (preserve_ip_addresses_run st n info orig p).2 :=
  ⟨rfl, congrArg Prod.fst (run_idem st n info orig p),
    congrArg Prod.snd (run_idem st n info orig p)⟩

/-- C9 counterexample: when the original interface has two access configs the
preserved interface does not carry the original accessConfigs list verbatim —
the handler attaches a single freshly built access config instead. -/
theorem accessConfigs_not_verbatim_copy :
    (preserve_ip_addresses_handler sampleInfo twoConfigInterface true .success).accessConfigs
      ≠ twoConfigInterface.accessConfigs := by decide

/-- C9 (amended): whenever external-IP preservation goes through (normal
success or either recoverable conflict), the returned accessConfigs is a
single freshly built access config derived from the first natIP-carrying
original access config: natIP = the original natIP, name mirrored from the
original, and type mirrored where present (one-to-one NAT otherwise) — not
the original accessConfigs list copied verbatim. -/
theorem accessConfigs_single_rebuilt (info : NetworkInfo)
    (orig : NetworkInterface) (cs : List AccessConfig) (c : AccessConfig)
    (ip : String) (outcome : ReservationOutcome)
    (hcs : orig.accessConfigs = some cs)
    (hc : firstConfigWithNatIP cs = some c)
    (hip : c.natIP = some ip)
    (hout : outcome = .success ∨ outcome = .addressExists ∨ outcome = .nameExists) :
    (preserve_ip_addresses_handler info orig true outcome).accessConfigs
      = some [rebuiltAccessConfig c ip] := by
  rcases hout with h | h | h <;> subst h <;>
    rw [handler_found info orig cs c ip _ hcs hc hip]

/-- Witness for the amended C9 at the two-config fixture. -/
theorem accessConfigs_single_rebuilt_witness :
    (preserve_ip_addresses_handler sampleInfo twoConfigInterface true .success).accessConfigs
      = some [rebuiltAccessConfig
          { name := some "External NAT"
            type := some "ONE_TO_ONE_NAT"
            natIP := some "35.203.14.22" } "35.203.14.22"] :=
  accessConfigs_single_rebuilt sampleInfo twoConfigInterface
    [ { name := some "External NAT"
        type := some "ONE_TO_ONE_NAT"
        natIP := some "35.203.14.22" },
      { name := some "External NAT 2"
        type := some "ONE_TO_ONE_NAT"
        natIP := some "35.203.14.23" } ]
    { name := some "External NAT"
      type := some "ONE_TO_ONE_NAT"
      natIP := some "35.203.14.22" }
    "35.203.14.22" .success rfl rfl rfl (Or.inl rfl)

/-- C10 counterexample: the empty value can be supplied on the command line
(as in writing the flag with an equals sign and nothing after it); it reaches
main as the empty string, which is falsy, so preservation is then disabled
even though the flag was not omitted. -/
theorem preserve_flag_empty_value_falsy :
    parsePreserveExternalIp (some "") = PyValue.pyStr "" ∧
    pyTruthy (parsePreserveExternalIp (some "")) = false := by decide

/-- C10 (amended): the CLI defines the preserve-external-ip option with
default False and no type conversion, so any value supplied on the command
line reaches main as that raw string, truthy exactly when non-empty — in
particular supplying the string False enables preservation; preservation is
disabled only when the flag is omitted entirely or supplied with the empty
value. -/
theorem preserve_flag_string_semantics (v : String) :
    parsePreserveExternalIp (some v) = PyValue.pyStr v ∧
    (pyTruthy (PyValue.pyStr v) = true ↔ v ≠ "") ∧
    pyTruthy (parsePreserveExternalIp (some "False")) = true ∧
    pyTruthy (parsePreserveExternalIp none) = false := by
  refine ⟨rfl, ?_, by decide, rfl⟩
  simp only [pyTruthy, Bool.not_eq_true', Bool.eq_false_iff, ne_eq]
  exact not_congr (String.isEmpty_iff v)
